import Mathlib

/-!
Verification development for the multi-source legal-search orchestration layer
of the IA-DROITS-VICTIMES-MULTI-APIs repository.

The Python source is shallowly embedded: pure computations become Lean
functions, the HTTP world is modelled as an explicit environment of scripted
attempt outcomes, and the SQL cache becomes an explicit list-of-rows state.
Each definition carries a pointer to the source location it embeds.
-/

/- ===================== ResilientHttpClient (app/services/api_clients.py) ===================== -/

/-- Classification of a Retry-After header value as seen by
`ClientMultiAPIs._parse_retry_after` (api_clients.py, lines 78-99).
`intSeconds n` is a header string that Python `int()` parses to `n`;
`httpDate d` is an RFC 7231 HTTP-date whose distance from now is `d` seconds;
`unparseable` is a string rejected both by `int()` and by
`parsedate_to_datetime`; `absent` is a missing header. -/
inductive RetryAfterHeader : Type
  | absent : RetryAfterHeader
  | intSeconds (n : Int) : RetryAfterHeader
  | httpDate (delta : Int) : RetryAfterHeader
  | unparseable : RetryAfterHeader
deriving DecidableEq, Repr

/-- Embedding of `_parse_retry_after` (api_clients.py, lines 78-99): absent
header gives 1; an integer header gives `max(1, n)`; an HTTP-date gives
`max(1, seconds until that date)`; anything unparseable gives 1. -/
def parseRetryAfter : RetryAfterHeader → Int
  | RetryAfterHeader.absent => 1
  | RetryAfterHeader.intSeconds n => max 1 n
  | RetryAfterHeader.httpDate d => max 1 d
  | RetryAfterHeader.unparseable => 1

/-- Outcome of one HTTP attempt inside `_request_json_with_retry`
(api_clients.py, lines 145-206). `response` carries the status, the parsed
JSON body (when the content type was JSON and parsing succeeded), the decoded
text body, and the Retry-After header; `netError` is an
`aiohttp.ClientError` or `asyncio.TimeoutError` raised by the attempt. -/
inductive AttemptOutcome (α : Type) : Type
  | response (status : Nat) (jsonData : Option α) (text : String)
      (retryAfter : RetryAfterHeader) : AttemptOutcome α
  | netError : AttemptOutcome α
deriving DecidableEq, Repr

/-- A sleep performed by the retry loop: `retryAfterWait s` is the
`await asyncio.sleep(retry_after)` of the 429 branch (api_clients.py, line
183); `backoffWait a` is the exponential-backoff sleep of the 5xx and
network-error branches at attempt index `a`, whose duration in the source is
`base_delay * 2**a + random.uniform(0, 0.25)` (lines 188, 198). -/
inductive Wait : Type
  | retryAfterWait (seconds : Int) : Wait
  | backoffWait (attempt : Nat) : Wait
deriving DecidableEq, Repr

/-- Result of `_request_json_with_retry`: either the returned triple
`(status, json_data, text)` (this includes the fall-through
`return 500, None, "Erreur inattendue"` at line 208, encoded with
`text = "Erreur inattendue"` and no JSON body), or `raised` when the final
attempt ended in a network error and the exception was re-raised (line 203). -/
inductive ReqResult (α : Type) : Type
  | triple (status : Nat) (jsonData : Option α) (text : String) : ReqResult α
  | raised : ReqResult α
deriving DecidableEq, Repr

/-- Embedding of the `max_retries` computation of `_request_json_with_retry`
(api_clients.py, lines 139-141): 1 attempt for non-idempotent methods unless
`retry_non_idempotent`, otherwise 3. The source uppercases the method with
`method.upper()` first; the embedding takes the method already uppercased
(every call site in the source passes an uppercase literal). -/
def maxRetriesFor (method : String) (retryNonIdempotent : Bool) : Nat :=
  if (["POST", "PATCH", "PUT"].contains method) && !retryNonIdempotent then 1 else 3

/-- One step of the retry loop of `_request_json_with_retry` (api_clients.py,
lines 145-208), recursing on the number of remaining loop iterations.
`env i` is the outcome of attempt `i` (0-based). The returned list records
the sleeps performed, in order. Control flow mirrors the source exactly:
a 429 always sleeps the parsed Retry-After and continues (even on the last
iteration, after which the loop exits into the synthetic
`(500, None, "Erreur inattendue")`); a 5xx sleeps the backoff and continues
only when not on the last iteration, else the triple is returned; any other
status is returned at once; a network error backs off and continues when not
on the last iteration, else it is re-raised. -/
def requestAux {α : Type} (env : Nat → AttemptOutcome α) (maxRetries : Nat) :
    Nat → ReqResult α × List Wait
  | 0 => (ReqResult.triple 500 none "Erreur inattendue", [])
  | remaining + 1 =>
    let attempt := maxRetries - (remaining + 1)
    match env attempt with
    | AttemptOutcome.response s d t ra =>
      if s == 429 then
        let rest := requestAux env maxRetries remaining
        (rest.1, Wait.retryAfterWait (parseRetryAfter ra) :: rest.2)
      else if 500 ≤ s && s < 600 && remaining != 0 then
        let rest := requestAux env maxRetries remaining
        (rest.1, Wait.backoffWait attempt :: rest.2)
      else
        (ReqResult.triple s d t, [])
    | AttemptOutcome.netError =>
      if remaining != 0 then
        let rest := requestAux env maxRetries remaining
        (rest.1, Wait.backoffWait attempt :: rest.2)
      else
        (ReqResult.raised, [])

/-- Embedding of `ClientMultiAPIs._request_json_with_retry` (api_clients.py,
lines 133-208) over a scripted environment of attempt outcomes. -/
def requestJsonWithRetry {α : Type} (env : Nat → AttemptOutcome α)
    (method : String) (retryNonIdempotent : Bool) : ReqResult α × List Wait :=
  let m := maxRetriesFor method retryNonIdempotent
  requestAux env m m

/- ===================== TokenCache (app/services/api_clients.py) ===================== -/

/-- The per-service slice of `ClientMultiAPIs` token state for one fixed
`api_name`: `self.tokens.get(api_name)` and `self.token_expiry.get(api_name)`
(api_clients.py, lines 39-40). Times are seconds as integers. -/
structure TokenState : Type where
  token : Option String
  expiry : Option Int
deriving DecidableEq, Repr

/-- The cached-token guard of `_get_piste_token` (api_clients.py, lines
105-110): the service has both a stored token and a stored expiry, and
`now < expiry` strictly. -/
def cachedTokenValid (st : TokenState) (now : Int) : Bool :=
  match st.token, st.expiry with
  | some _, some e => now < e
  | _, _ => false

/-- The refresh arm of `_get_piste_token` (api_clients.py, lines 112-131).
`exchange` abstracts the token-endpoint POST: `some (tok, expiresIn)` models
`status == 200 and data` with `data` holding `access_token = tok` and the
optional `expires_in`; `none` models any failing exchange, which the source
turns into a raised exception. On success the stored validity window is
`expires_in = max(60, data.get("expires_in", 3600) - 300)` and the stored
expiry is `now + expires_in`. -/
def fetchPisteToken (now : Int) (exchange : Option (String × Option Int)) :
    Except String (String × TokenState) :=
  match exchange with
  | some (tok, expIn) =>
    let validity : Int := max 60 ((expIn.getD 3600) - 300)
    Except.ok (tok, { token := some tok, expiry := some (now + validity) })
  | none => Except.error "Erreur auth"

/-- Embedding of `ClientMultiAPIs._get_piste_token` (api_clients.py, lines
101-131) for one service: return the cached token when it is strictly before
its stored expiry, otherwise perform the exchange and store the new token and
its computed expiry. The pair returned is (access token, post-call state). -/
def getPisteToken (st : TokenState) (now : Int)
    (exchange : Option (String × Option Int)) : Except String (String × TokenState) :=
  if cachedTokenValid st now then
    match st.token with
    | some t => Except.ok (t, st)
    | none => fetchPisteToken now exchange
  else
    fetchPisteToken now exchange

/- ===================== ServiceAdapter 401 handling (app/services/api_clients.py) ===================== -/

/-- Outcome of one full search HTTP call as classified by
`search_legifrance` (api_clients.py, lines 236-244): `ok d` is
`status == 200 and data`; `unauthorized` is `status == 401`; `failure s` is
every other case (which the source turns into a raised exception carrying the
status). -/
inductive SearchOutcome (α : Type) : Type
  | ok (d : α) : SearchOutcome α
  | unauthorized : SearchOutcome α
  | failure (status : Nat) : SearchOutcome α
deriving DecidableEq, Repr

/-- Embedding of the 401-handling control flow of
`ClientMultiAPIs.search_legifrance` (api_clients.py, lines 218-244; the
`search_judilibre` and `search_justice_back` bodies at lines 246-297 have the
identical shape). The list scripts the outcomes of the successive search
calls of one logical invocation; on `unauthorized` the source pops the cached
token and recurses, consuming the next outcome — with no bound on the number
of 401-triggered retries. Token acquisition is abstracted as succeeding
(its failures raise before any search request and are orthogonal to the 401
loop). `none` means the scripted outcomes were exhausted while the source
would still be recursing. -/
def searchLegifrance {α : Type} : List (SearchOutcome α) → Option (Except Nat α)
  | [] => none
  | o :: rest =>
    match o with
    | SearchOutcome.ok d => some (Except.ok d)
    | SearchOutcome.unauthorized => searchLegifrance rest
    | SearchOutcome.failure s => some (Except.error s)

/- ===================== Result formatting (app/main.py) ===================== -/

/-- Python `x or default` on an optional string: `None` and the empty string
are falsy and fall through to the default. -/
def pyOrStr (a : Option String) (dflt : String) : String :=
  match a with
  | some s => if s = "" then dflt else s
  | none => dflt

/-- Python `x or y` where both operands are optional strings. -/
def pyOrOpt (a b : Option String) : Option String :=
  match a with
  | some s => if s = "" then b else some s
  | none => b

/-- One element of a `results` array as consumed by the Legifrance and
Judilibre formatters of app/main.py (lines 411-426 and 476-485): each field
is the value of the corresponding dict key, `none` when the key is absent.
`chamberName` stands for `(item.get("chamber") or {}).get("name")`. -/
structure ResultItem : Type where
  title : Option String := none
  nature : Option String := none
  date : Option String := none
  id : Option String := none
  content : Option String := none
  number : Option String := none
  jurisdiction : Option String := none
  creation : Option String := none
  chamberName : Option String := none
  formation : Option String := none
  theme : Option String := none
  solution : Option String := none
deriving DecidableEq, Repr

/-- The `attributes` sub-dict of a Justice Back place item
(app/main.py, lines 431-451). -/
structure JusticeAttributes : Type where
  title : Option String := none
  field_ldj_gps_lat : Option String := none
  field_ldj_gps_latitude : Option String := none
  field_ldj_lat : Option String := none
  field_ldj_gps_lgn : Option String := none
  field_ldj_gps_lng : Option String := none
  field_ldj_gps_long : Option String := none
  field_ldj_lng : Option String := none
  field_ldj_long : Option String := none
  field_ldj_adresse : Option String := none
  field_ldj_telephone : Option String := none
  field_ldj_courriel : Option String := none
  field_ldj_horaire : Option String := none
deriving DecidableEq, Repr

/-- One element of the `data` array of a Justice Back payload
(app/main.py, line 431); `item.get("attributes", {})` is modelled by the
all-`none` default attributes record. -/
structure JusticeItem : Type where
  id : Option String := none
  attributes : JusticeAttributes := {}
deriving DecidableEq, Repr

/-- An upstream JSON payload as consumed by the formatters: the value of its
`results` key (Legifrance/Judilibre) and of its `data` key (Justice Back),
`none` when absent. -/
structure Payload : Type where
  results : Option (List ResultItem) := none
  data : Option (List JusticeItem) := none
deriving DecidableEq, Repr

/-- The formatted Legifrance entry built in `formater_resultats_complets_func`
(app/main.py, lines 476-485). -/
structure LegifranceFormatted : Type where
  titre : String
  nature : String
  date : String
  id : Option String
  resume : String
deriving DecidableEq, Repr

/-- The Legifrance list comprehension of `formater_resultats_complets_func`
(app/main.py, lines 476-485): the first five `results` items, each formatted
with the source defaults; the summary is built from `content` only when that
value is truthy. -/
def formaterLegifranceListe (p : Payload) : List LegifranceFormatted :=
  ((p.results.getD []).take 5).map fun r =>
    { titre := r.title.getD "Sans titre"
      nature := r.nature.getD "Inconnue"
      date := r.date.getD "Date inconnue"
      id := r.id
      resume :=
        match r.content with
        | some c => if c = "" then "Aucun résumé" else c.take 150 ++ "..."
        | none => "Aucun résumé" }

/-- The formatted Judilibre entry built in `formater_resultats_judilibre_func`
(app/main.py, lines 411-426). -/
structure JudilibreFormatted : Type where
  titre : String
  juridiction : String
  date : String
  chambre : String
  formation : String
  theme : String
  resume : String
  fiabilite : String
  source : String
deriving DecidableEq, Repr

/-- Embedding of `formater_resultats_judilibre_func` (app/main.py, lines
411-426): the first five `results` items, formatted with the source
defaults; `resume` truncates `solution or "Aucun résumé disponible"` to 200
characters and always appends an ellipsis. -/
def formaterResultatsJudilibre (p : Payload) : List JudilibreFormatted :=
  ((p.results.getD []).take 5).map fun item =>
    { titre := "Arrêt " ++ item.number.getD "N/A"
      juridiction := item.jurisdiction.getD "Inconnue"
      date := item.creation.getD (item.date.getD "Date inconnue")
      chambre := item.chamberName.getD "N/A"
      formation := item.formation.getD "N/A"
      theme := item.theme.getD "N/A"
      resume := (pyOrStr item.solution "Aucun résumé disponible").take 200 ++ "..."
      fiabilite := "✅ Source officielle Cour de Cassation"
      source := "judilibre:" ++ item.id.getD (item.number.getD "unknown") }

/-- The formatted place entry built in `formater_lieux_justice_func`
(app/main.py, lines 444-457). -/
structure Lieu : Type where
  id : Option String
  titre : String
  typeLieu : String
  adresse : String
  telephone : String
  courriel : String
  horaire : String
  gpsLat : Option String
  gpsLng : Option String
  source : String
deriving DecidableEq, Repr

/-- The return value of `formater_lieux_justice_func` (app/main.py, line
460): the formatted places and their count. -/
structure LieuxReponse : Type where
  lieux : List Lieu
  total : Nat
deriving DecidableEq, Repr

/-- Embedding of `formater_lieux_justice_func` (app/main.py, lines 428-460):
every element of the payload `data` array becomes a place record; the GPS
coordinates take the first truthy candidate among the alternative attribute
spellings, mirroring the `or`-chains of lines 434-442. -/
def formaterLieuxJustice (p : Payload) : LieuxReponse :=
  let lieux := (p.data.getD []).map fun item =>
    let attrs := item.attributes
    { id := item.id
      titre := attrs.title.getD "Lieu de justice"
      typeLieu := "Tribunal"
      adresse := attrs.field_ldj_adresse.getD "Non renseigné"
      telephone := attrs.field_ldj_telephone.getD "Non renseigné"
      courriel := attrs.field_ldj_courriel.getD "Non renseigné"
      horaire := attrs.field_ldj_horaire.getD "Non renseigné"
      gpsLat := pyOrOpt attrs.field_ldj_gps_lat
        (pyOrOpt attrs.field_ldj_gps_latitude attrs.field_ldj_lat)
      gpsLng := pyOrOpt attrs.field_ldj_gps_lgn
        (pyOrOpt attrs.field_ldj_gps_lng
          (pyOrOpt attrs.field_ldj_gps_long
            (pyOrOpt attrs.field_ldj_lng attrs.field_ldj_long)))
      source := "justice_back:" ++ item.id.getD "unknown" : Lieu }
  { lieux := lieux, total := lieux.length }

/-- The `analyse` sub-dict of `formater_resultats_complets_func`
(app/main.py, lines 468, 486, 493, 501): each count key is present (`some`)
exactly when the corresponding API slot held a non-exception dict result;
the timestamp field is not modelled. -/
structure AnalyseMeta : Type where
  nombre_textes : Option Nat
  nombre_jurisprudence : Option Nat
  nombre_lieux : Option Nat
deriving DecidableEq, Repr

/-- The dict returned by `formater_resultats_complets_func`
(app/main.py, lines 462-503). -/
structure FormatOutput : Type where
  legifrance : List LegifranceFormatted
  judilibre : List JudilibreFormatted
  justice_back : List Lieu
  analyse : AnalyseMeta
deriving DecidableEq, Repr

/-- One API block of `formater_resultats_complets_func` (app/main.py, lines
473-487 and its two clones): when the API is in `apis_includes` and the
running index is in range, the slot is consumed (index advances) and, when
the slot holds a non-exception dict (`Except.ok`), the formatted value is
produced; an exception in the slot leaves the section at its empty default
and the count key absent. When the API is not included (or the index is out
of range) the index does not advance. -/
def processSlot {β : Type} (results : List (Except Unit Payload)) (idx : Nat)
    (included : Bool) (fmt : Payload → β) : Option β × Nat :=
  if included && idx < results.length then
    match results[idx]? with
    | some (Except.ok p) => (some (fmt p), idx + 1)
    | _ => (none, idx + 1)
  else
    (none, idx)

/-- Embedding of `formater_resultats_complets_func` (app/main.py, lines
462-503): the three API slots are consumed positionally in the fixed order
legifrance, judilibre, justice_back, guarded by membership in
`apis_includes`; an `Except.error` entry (an exception returned by
`asyncio.gather(..., return_exceptions=True)`) leaves that API section empty
and its count absent from `analyse`. -/
def formaterResultatsComplets (results : List (Except Unit Payload))
    (apisIncludes : List String) : FormatOutput :=
  let s1 := processSlot results 0 (apisIncludes.contains "legifrance") formaterLegifranceListe
  let s2 := processSlot results s1.2 (apisIncludes.contains "judilibre") formaterResultatsJudilibre
  let s3 := processSlot results s2.2 (apisIncludes.contains "justice_back")
    (fun p => (formaterLieuxJustice p).lieux)
  { legifrance := s1.1.getD []
    judilibre := s2.1.getD []
    justice_back := s3.1.getD []
    analyse :=
      { nombre_textes := s1.1.map List.length
        nombre_jurisprudence := s2.1.map List.length
        nombre_lieux := s3.1.map List.length } }

/-- The task list built by `recherche_complete_endpoint` (app/main.py, lines
322-364): one concurrent task per included API, in the fixed order
legifrance, judilibre, justice_back. `asyncio.gather(*tasks,
return_exceptions=True)` (line 366) neither cancels nor fails sibling tasks,
so the outcome of each adapter is an independent `Except Unit Payload`
(`Except.error` standing for a raised exception returned in place). -/
def rechercheCompleteTasks (includeApis : List String)
    (outLegifrance outJudilibre outJusticeBack : Except Unit Payload) :
    List (Except Unit Payload) :=
  (if includeApis.contains "legifrance" then [outLegifrance] else []) ++
  (if includeApis.contains "judilibre" then [outJudilibre] else []) ++
  (if includeApis.contains "justice_back" then [outJusticeBack] else [])

/-- Embedding of the fan-out and formatting of `recherche_complete_endpoint`
(app/main.py, lines 314-368): gather the per-adapter outcomes and format
them. The function is total: no adapter outcome makes the endpoint raise. -/
def rechercheCompleteEndpoint (includeApis : List String)
    (outLegifrance outJudilibre outJusticeBack : Except Unit Payload) : FormatOutput :=
  formaterResultatsComplets
    (rechercheCompleteTasks includeApis outLegifrance outJudilibre outJusticeBack)
    includeApis

/- ===================== Postal-code validation (app/main.py) ===================== -/

/-- The pattern check `re.match(r"^\d{5}$", s)` used at app/main.py lines 359
and 388: exactly five decimal digits. -/
def matchesCodePostal (s : String) : Bool :=
  s.length == 5 && s.toList.all Char.isDigit

/-- The Justice Back parameter construction of `recherche_complete_endpoint`
(app/main.py, lines 352-362): a postal-code filter is attached only when the
supplied value matches the five-digit pattern; an invalid value is dropped
with a log warning (`"Code postal invalide ignoré"`) and no error. -/
def justiceCodePostalFilter (codePostal : Option String) : Option String :=
  match codePostal with
  | none => none
  | some cp => if matchesCodePostal cp then some cp else none

/-- Whether `recherche_complete_endpoint` issues the Justice Back network
call, and with which postal filter (app/main.py, lines 352-364): the call is
made whenever `"justice_back"` is in `include_apis`, regardless of the
validity of the postal code. `some f` means a network call with optional
filter `f`; `none` means no Justice Back call. -/
def rechercheJusticeNetworkCall (includeApis : List String)
    (codePostal : Option String) : Option (Option String) :=
  if includeApis.contains "justice_back" then
    some (justiceCodePostalFilter codePostal)
  else
    none

/-- Outcome of `lieux_justice_endpoint` before/at its network call
(app/main.py, lines 377-400). -/
inductive LieuxJusticeOutcome : Type
  | rejected (httpStatus : Nat) (detail : String) : LieuxJusticeOutcome
  | networkCall (codePostalFilter : String) : LieuxJusticeOutcome
deriving DecidableEq, Repr

/-- Embedding of the validation prefix of `lieux_justice_endpoint`
(app/main.py, lines 377-400): an empty postal code yields HTTP 400, a value
not matching the five-digit pattern yields HTTP 400, and only then is the
Justice Back network call issued with the code as filter. -/
def lieuxJusticeEndpoint (codePostal : String) : LieuxJusticeOutcome :=
  if codePostal = "" then
    LieuxJusticeOutcome.rejected 400 "Le code postal est requis"
  else if !(matchesCodePostal codePostal) then
    LieuxJusticeOutcome.rejected 400 "Code postal invalide - doit contenir 5 chiffres"
  else
    LieuxJusticeOutcome.networkCall codePostal

/-- Python `str.strip()` whitespace: the characters stripped from both ends
by the `situation.strip()` call of legal_search_persistent.py line 61. -/
def pyWhitespace (c : Char) : Bool :=
  c == ' ' || c == '\t' || c == '\n' || c == '\r'

/-- Embedding of Python `str.strip()`: drop whitespace from both ends. -/
def pyStrip (s : String) : String :=
  String.mk (((s.toList.dropWhile pyWhitespace).reverse.dropWhile pyWhitespace).reverse)

/-- Modelled from the spec: the `SearchRequest` pydantic model is imported by
app/main.py line 19 from app/models/schemas.py, but that file does not define
it (the definition is missing from the sources). The spec requires that
`description` be non-empty after trimming, validated before any network
call. -/
def searchRequestDescriptionValid (description : String) : Bool :=
  pyStrip description ≠ ""

/- ===================== MoteurRecherchePersistent (app/services/legal_search_persistent.py, app/database.py) ===================== -/

/-- The character class of the keyword regex
`[a-zàâçéèêëîïôûùüÿñæœ-]{4,}` of `_extraire_mots_cles`
(legal_search_persistent.py, line 193). -/
def motChar (c : Char) : Bool :=
  ("a".front ≤ c && c ≤ "z".front) || "àâçéèêëîïôûùüÿñæœ-".toList.contains c

/-- Maximal runs of allowed characters, as produced by `re.findall` with the
greedy `{4,}` quantifier (runs shorter than the minimum are dropped by the
caller). `acc` is the current run, reversed. -/
def motRuns : List Char → List Char → List (List Char)
  | [], acc => if acc.isEmpty then [] else [acc.reverse]
  | c :: rest, acc =>
    if motChar c then
      motRuns rest (c :: acc)
    else if acc.isEmpty then
      motRuns rest []
    else
      acc.reverse :: motRuns rest []

/-- Order-preserving deduplication, mirroring the `seen` loop of
`_extraire_mots_cles` (legal_search_persistent.py, lines 194-197). -/
def dedupKeep : List String → List String → List String
  | [], _ => []
  | t :: rest, seen =>
    if seen.contains t then dedupKeep rest seen else t :: dedupKeep rest (seen ++ [t])

/-- Embedding of `MoteurRecherchePersistent._extraire_mots_cles`
(legal_search_persistent.py, lines 191-198): lowercase the input, collect the
maximal runs of word characters of length at least 4, deduplicate preserving
order, keep the first 8. Lowercasing is `Char.toLower` (the accented letters
of the character class are already lowercase). -/
def extraireMotsCles (situation : String) : List String :=
  let tokens := (motRuns (situation.toList.map Char.toLower) []).filter (fun r => 4 ≤ r.length)
  (dedupKeep (tokens.map (fun r => String.mk r)) []).take 8

/-- The keyword-to-domain table of `_detecter_strategie`
(legal_search_persistent.py, lines 202-213). -/
def domaines : List (String × String) :=
  [("travail", "Droit du travail"), ("licenciement", "Droit du travail"),
   ("contrat", "Droit civil"), ("divorce", "Droit civil"),
   ("entreprise", "Droit commercial"), ("societe", "Droit commercial"),
   ("mairie", "Droit administratif"), ("prefecture", "Droit administratif"),
   ("plainte", "Droit pénal"), ("agression", "Droit pénal")]

/-- Embedding of `_detecter_strategie` (legal_search_persistent.py, lines
200-218): the domain of the first keyword found in the table, defaulting to
`"Auto-détection"`. -/
def detecterStrategie (motsCles : List String) : String :=
  match motsCles.findSome? (fun m => (domaines.find? (fun d => d.1 == m)).map Prod.snd) with
  | some d => d
  | none => "Auto-détection"

/-- Embedding of `_generer_resume` (legal_search_persistent.py, lines
220-222). -/
def genererResume (situation strategie : String) : String :=
  if 120 < situation.length then
    "Stratégie: " ++ strategie ++ ". Analyse de la situation: " ++ situation.take 120 ++ "..."
  else
    "Stratégie: " ++ strategie ++ ". Analyse de la situation: " ++ situation

/-- The `AnalyseSituation` dataclass (legal_search_persistent.py, lines
26-41). -/
structure AnalyseSituation : Type where
  situation : String
  strategie_detectee : String
  mots_cles : List String
  resume : String
deriving DecidableEq, Repr

/-- Embedding of `_analyser_situation` (legal_search_persistent.py, lines
183-189): `strategie_detectee = strategie or _detecter_strategie(mots_cles)`
with Python truthiness on the optional override. -/
def analyserSituation (situation : String) (strategie : Option String) : AnalyseSituation :=
  let motsCles := extraireMotsCles situation
  let strategieDetectee := pyOrStr strategie (detecterStrategie motsCles)
  { situation := situation
    strategie_detectee := strategieDetectee
    mots_cles := motsCles
    resume := genererResume situation strategieDetectee }

/-- Modelled from the spec: `APIClients.compute_hash` is called at
legal_search_persistent.py lines 66-71 but the `APIClients` class imported
from app.services.api_clients does not exist in the sources. The spec
requires a stable content hash of the normalized query: two calls with the
same situation and strategy must produce the same fingerprint. Modelled as a
deterministic injective encoding of the hashed dict. -/
def computeHash (situation strategie : String) : String :=
  toString situation.length ++ ":" ++ situation ++ "|" ++ strategie

/-- An upstream search payload as consumed by the persistent engine:
`payload.get("results", [])` with abstract result items. -/
structure SearchPayload : Type where
  results : List String
deriving DecidableEq, Repr

/-- The `(success, payload)` pair returned by the advanced search helpers of
the (absent) `APIClients` class, as consumed at legal_search_persistent.py
lines 157-178. -/
structure AdapterOutcome : Type where
  success : Bool
  payload : SearchPayload
deriving DecidableEq, Repr

/-- Embedding of `_rechercher_legifrance` (legal_search_persistent.py, lines
153-160): an empty payload when the feature flag is off, the adapter payload
when the call succeeded, and an empty payload on failure. -/
def rechercherLegifrance (ffEnabled : Bool) (o : AdapterOutcome) : SearchPayload :=
  if !ffEnabled then { results := [] }
  else if o.success then o.payload
  else { results := [] }

/-- Embedding of `_rechercher_judilibre` (legal_search_persistent.py, lines
162-169); same shape as the Legifrance arm. -/
def rechercherJudilibre (ffEnabled : Bool) (o : AdapterOutcome) : SearchPayload :=
  if !ffEnabled then { results := [] }
  else if o.success then o.payload
  else { results := [] }

/-- Embedding of `_rechercher_justice_back` (legal_search_persistent.py,
lines 171-178); same shape as the Legifrance arm (the `ville` argument only
parametrizes the abstracted network call). -/
def rechercherJusticeBack (ffEnabled : Bool) (o : AdapterOutcome) : SearchPayload :=
  if !ffEnabled then { results := [] }
  else if o.success then o.payload
  else { results := [] }

/-- The merged-result dict assembled at legal_search_persistent.py lines
82-96 and stored in the cache. `from_cache` is an `Option` because the dict
key may in principle be absent, which is what `dict.setdefault` tests. -/
structure Resultats : Type where
  situation : String
  strategie : String
  nombre_textes : Nat
  nombre_jurisprudence : Nat
  nombre_lieux : Nat
  legifrance : SearchPayload
  judilibre : SearchPayload
  justice_back : SearchPayload
  timestamp : Int
  from_cache : Option Bool
deriving DecidableEq, Repr

/-- Embedding of `cached.setdefault("from_cache", True)`
(legal_search_persistent.py, line 75): sets the key to `True` only when it is
absent; an already-present value (such as the stored `False`) is kept. -/
def setdefaultFromCache (r : Resultats) : Resultats :=
  { r with from_cache := some (r.from_cache.getD true) }

/-- A row of the `recherches_cachees` table (app/database.py, lines 36-49),
with `created_at` in integer seconds. The table carries
`UniqueConstraint("user_id", "query_hash")`. -/
structure CacheRow : Type where
  user_id : String
  query_hash : String
  situation : String
  strategie : String
  resultats : Resultats
  created_at : Int
deriving DecidableEq, Repr

/-- The cache table state: its rows in insertion order. -/
abbrev CacheDB : Type := List CacheRow

/-- The `select ... where user_id = u and query_hash = h order_by created_at
desc` then `.first()` of `_charger_depuis_cache` (legal_search_persistent.py,
lines 106-117): among the matching rows, one with maximal `created_at`. -/
def selectEntry (db : CacheDB) (u h : String) : Option CacheRow :=
  (db.filter (fun r => r.user_id == u && r.query_hash == h)).foldl
    (fun acc r =>
      match acc with
      | none => some r
      | some b => if b.created_at < r.created_at then some r else some b)
    none

/-- Embedding of `_charger_depuis_cache` (legal_search_persistent.py, lines
104-126): a missing row is a miss; a row with
`created_at < now - cache_ttl` is stale and also a miss; otherwise the stored
result dict is returned. -/
def chargerDepuisCache (now ttl : Int) (db : CacheDB) (u h : String) : Option Resultats :=
  match selectEntry db u h with
  | none => none
  | some e => if e.created_at < now - ttl then none else some e.resultats

/-- Embedding of `_enregistrer_cache` (legal_search_persistent.py, lines
128-148) over the table with its uniqueness constraint on
`(user_id, query_hash)` (app/database.py, line 49): inserting a row whose key
already exists raises `IntegrityError`, which the source catches, rolls the
transaction back, and returns — leaving the table unchanged and the new
result discarded. A fresh key appends the row. -/
def enregistrerCache (db : CacheDB) (row : CacheRow) : CacheDB :=
  if db.any (fun r => r.user_id == row.user_id && r.query_hash == row.query_hash) then
    db
  else
    db ++ [row]

/-- `DEFAULT_CACHE_TTL = timedelta(minutes=30)` (legal_search_persistent.py,
line 23), in seconds. -/
def defaultCacheTTL : Int := 1800

/-- One invocation environment of `analyser_et_rechercher_persistent`: the
caller-supplied arguments, the current wall-clock second, the three feature
flags read from the configuration, and the scripted outcome of each
adapter call. -/
structure EngineInput : Type where
  situation : String
  strategie : Option String
  user_id : String
  now : Int
  ffLegifrance : Bool := true
  ffJudilibre : Bool := true
  ffJusticeBack : Bool := true
  outLegifrance : AdapterOutcome
  outJudilibre : AdapterOutcome
  outJusticeBack : AdapterOutcome
deriving Repr

/-- The query hash computed at legal_search_persistent.py lines 66-71 from
the trimmed situation and the detected strategy of the analysis. -/
def queryHashOf (inp : EngineInput) : String :=
  computeHash (pyStrip inp.situation)
    (analyserSituation (pyStrip inp.situation) inp.strategie).strategie_detectee

/-- The merged-result dict assembled on a cache miss at
legal_search_persistent.py lines 78-96: the three service searches and the
`resultats` record with `from_cache = False`. -/
def fanoutResultats (inp : EngineInput) : Resultats :=
  let analyse := analyserSituation (pyStrip inp.situation) inp.strategie
  let legifrance := rechercherLegifrance inp.ffLegifrance inp.outLegifrance
  let judilibre := rechercherJudilibre inp.ffJudilibre inp.outJudilibre
  let justiceBack := rechercherJusticeBack inp.ffJusticeBack inp.outJusticeBack
  { situation := analyse.situation
    strategie := pyOrStr inp.strategie analyse.strategie_detectee
    nombre_textes := legifrance.results.length
    nombre_jurisprudence := judilibre.results.length
    nombre_lieux := justiceBack.results.length
    legifrance := legifrance
    judilibre := judilibre
    justice_back := justiceBack
    timestamp := inp.now
    from_cache := some false }

/-- The `RechercheCache` row constructed at legal_search_persistent.py lines
136-142 for the miss-branch store. -/
def fanoutRow (inp : EngineInput) : CacheRow :=
  { user_id := inp.user_id
    query_hash := queryHashOf inp
    situation := pyStrip inp.situation
    strategie := (analyserSituation (pyStrip inp.situation) inp.strategie).strategie_detectee
    resultats := fanoutResultats inp
    created_at := inp.now }

/-- Embedding of `MoteurRecherchePersistent.analyser_et_rechercher_persistent`
(legal_search_persistent.py, lines 55-99): trim and reject an empty
situation; analyse; compute the query hash; serve a fresh cache hit through
`setdefault("from_cache", True)`; otherwise fan out to the three services,
assemble the merged dict with `from_cache = False`, store it unconditionally
through `_enregistrer_cache`, and return it together with the new table
state. -/
def analyserEtRechercherPersistent (inp : EngineInput) (db : CacheDB) :
    Except String (Resultats × CacheDB) :=
  if pyStrip inp.situation = "" then
    Except.error "La situation ne peut pas être vide"
  else
    match chargerDepuisCache inp.now defaultCacheTTL db inp.user_id (queryHashOf inp) with
    | some cached => Except.ok (setdefaultFromCache cached, db)
    | none => Except.ok (fanoutResultats inp, enregistrerCache db (fanoutRow inp))

/-- Concrete Judilibre payload for the partial-failure witness. -/
def wPayloadJudilibre : Payload := { results := some [{ number := some "21-12345" }] }

/-- Concrete Justice Back payload for the partial-failure witness. -/
def wPayloadJustice : Payload := { data := some [{ id := some "lieu-1" }] }

/-- The C2 scenario: a first fresh search by requester u1. -/
def c2Input : EngineInput :=
  { situation := "accident travail grave"
    strategie := none
    user_id := "u1"
    now := 0
    outLegifrance := { success := true, payload := { results := ["L1", "L2"] } }
    outJudilibre := { success := true, payload := { results := ["J1"] } }
    outJusticeBack := { success := false, payload := { results := [] } } }

/-- The C3 scenario: every adapter call fails. -/
def c3Input : EngineInput :=
  { situation := "accident travail grave"
    strategie := none
    user_id := "u3"
    now := 0
    outLegifrance := { success := false, payload := { results := ["L1"] } }
    outJudilibre := { success := false, payload := { results := [] } }
    outJusticeBack := { success := false, payload := { results := [] } } }

/-- The C3 scenario, second call: 60 seconds later, with a Legifrance
adapter that would now succeed. -/
def c3Input2 : EngineInput :=
  { c3Input with
      now := 60
      outLegifrance := { success := true, payload := { results := ["L1", "L2"] } } }

/-- Two cache rows share a key when both the requester and the query hash
coincide — the columns of `uq_user_query_hash` (app/database.py, line 49). -/
def sameKey (a b : CacheRow) : Prop :=
  a.user_id = b.user_id ∧ a.query_hash = b.query_hash

/-- No two rows of the table share a `(user_id, query_hash)` key — the
invariant enforced by the uniqueness constraint. -/
def noDupKeys (db : CacheDB) : Prop :=
  db.Pairwise (fun a b => ¬ sameKey a b)

/-- The stored aggregate of the first C7 write. -/
def c7ResA : Resultats :=
  { situation := "s"
    strategie := "st"
    nombre_textes := 1
    nombre_jurisprudence := 0
    nombre_lieux := 0
    legifrance := { results := ["old"] }
    judilibre := { results := [] }
    justice_back := { results := [] }
    timestamp := 0
    from_cache := some false }

/-- The newer aggregate of the conflicting second C7 write. -/
def c7ResB : Resultats :=
  { c7ResA with
      nombre_textes := 2
      legifrance := { results := ["new1", "new2"] }
      timestamp := 5 }

/-- The existing row for the C7 scenario. -/
def c7RowA : CacheRow :=
  { user_id := "u"
    query_hash := "q"
    situation := "s"
    strategie := "st"
    resultats := c7ResA
    created_at := 0 }

/-- The conflicting newer row for the C7 scenario: same key, newer result. -/
def c7RowB : CacheRow :=
  { c7RowA with
      resultats := c7ResB
      created_at := 5 }

/- ===================== Theorems ===================== -/

/-- The retry budget of an idempotent GET is 3 attempts
(api_clients.py, lines 139-141). -/
theorem maxRetriesFor_get : maxRetriesFor "GET" false = 3 := rfl

/-- Claim C4: for every HTTP 429 response the client waits exactly the
duration given by the Retry-After header before the next attempt — parsing
both the integer-seconds format and the HTTP-date format — with a floor of
1 second (and 1 second when the header is absent or unparseable), instead of
the exponential backoff delay: the sleep recorded for a 429 attempt is a
`retryAfterWait` of exactly `parseRetryAfter`, never a `backoffWait`. -/
theorem retry_after_exact_wait :
    (parseRetryAfter RetryAfterHeader.absent = 1) ∧
    (parseRetryAfter RetryAfterHeader.unparseable = 1) ∧
    (∀ n : Int, parseRetryAfter (RetryAfterHeader.intSeconds n) = max 1 n) ∧
    (∀ d : Int, parseRetryAfter (RetryAfterHeader.httpDate d) = max 1 d) ∧
    (∀ (env : Nat → AttemptOutcome Nat) (d : Option Nat) (t : String)
        (ra : RetryAfterHeader),
      env 0 = AttemptOutcome.response 429 d t ra →
      (requestJsonWithRetry env "GET" false).2.head? =
        some (Wait.retryAfterWait (parseRetryAfter ra))) := by
  refine ⟨rfl, rfl, fun n => rfl, fun d => rfl, ?_⟩
  intro env d t ra h
  simp [requestJsonWithRetry, maxRetriesFor, requestAux, h]

/-- Witness for C4: with a constant environment answering 429 and
`Retry-After: 2`, the first sleep is exactly 2 seconds. -/
theorem retry_after_exact_wait_witness :
    (requestJsonWithRetry
        (fun _ => AttemptOutcome.response 429 (none (α := Nat)) "body"
          (RetryAfterHeader.intSeconds 2)) "GET" false).2.head? =
      some (Wait.retryAfterWait (parseRetryAfter (RetryAfterHeader.intSeconds 2))) :=
  retry_after_exact_wait.2.2.2.2
    (fun _ => AttemptOutcome.response 429 (none (α := Nat)) "body"
      (RetryAfterHeader.intSeconds 2)) none "body" (RetryAfterHeader.intSeconds 2) rfl

/-- Counterexample to claim C5: an HTTP 408 on the first of three permitted
attempts is returned to the caller immediately, with no sleep and no retry —
the source retry condition is `500 <= status < 600` (api_clients.py, line
187) plus the 429 branch, so 408 (and 425) are not in the retried set,
contrary to the claim. -/
theorem transient_set_counterexample :
    requestJsonWithRetry
        (fun _ => AttemptOutcome.response 408 (none (α := Nat)) "t" RetryAfterHeader.absent)
        "GET" false
      = (ReqResult.triple 408 none "t", []) := rfl

/-- Claim C5 (amended): on a non-final attempt the client retries exactly
when the outcome is a network/connection error or timeout, an HTTP status in
500..599 (the whole 5xx class, including 501 and 505), or a 429 (which waits
the parsed Retry-After); every other status — including 408 and 425 — is
returned to the caller without a retry. -/
theorem retry_classes_actual (env : Nat → AttemptOutcome Nat) (s : Nat)
    (d : Option Nat) (t : String) (ra : RetryAfterHeader) :
    (env 0 = AttemptOutcome.response s d t ra → s ≠ 429 → ¬(500 ≤ s ∧ s < 600) →
      requestJsonWithRetry env "GET" false = (ReqResult.triple s d t, [])) ∧
    (env 0 = AttemptOutcome.response s d t ra → 500 ≤ s → s < 600 →
      (requestJsonWithRetry env "GET" false).2.head? = some (Wait.backoffWait 0)) ∧
    (env 0 = AttemptOutcome.netError →
      (requestJsonWithRetry env "GET" false).2.head? = some (Wait.backoffWait 0)) ∧
    (env 0 = AttemptOutcome.response 429 d t ra →
      (requestJsonWithRetry env "GET" false).2.head? =
        some (Wait.retryAfterWait (parseRetryAfter ra))) := by
  refine ⟨?_, ?_, ?_, ?_⟩
  · intro h h429 h5xx
    have hs : (s == 429) = false := by
      simp only [beq_eq_false_iff_ne]; exact h429
    have h5 : (500 ≤ s && (s < 600 && true)) = false := by
      by_cases h1 : 500 ≤ s
      · by_cases h2 : s < 600
        · exact absurd ⟨h1, h2⟩ h5xx
        · simp [h2]
      · simp [h1]
    rcases Nat.lt_or_ge s 500 with h1 | h1
    · have h2 : ¬ (500 ≤ s) := Nat.not_le.mpr h1
      simp [requestJsonWithRetry, maxRetriesFor, requestAux, h, h429, h2]
    · have h2 : ¬ s < 600 := fun hlt => h5xx ⟨h1, hlt⟩
      simp [requestJsonWithRetry, maxRetriesFor, requestAux, h, h429, h1, h2]
  · intro h h1 h2
    have hs : (s == 429) = false := by
      simp only [beq_eq_false_iff_ne]
      omega
    simp [requestJsonWithRetry, maxRetriesFor, requestAux, h, hs, h1, h2]
  · intro h
    simp [requestJsonWithRetry, maxRetriesFor, requestAux, h]
  · intro h
    simp [requestJsonWithRetry, maxRetriesFor, requestAux, h]

/-- Witness for C5 (amended): a 404 on the first attempt is returned as-is
with no retry. -/
theorem retry_classes_actual_witness :
    requestJsonWithRetry
        (fun _ => AttemptOutcome.response 404 (none (α := Nat)) "nf" RetryAfterHeader.absent)
        "GET" false
      = (ReqResult.triple 404 none "nf", []) :=
  (retry_classes_actual
    (fun _ => AttemptOutcome.response 404 (none (α := Nat)) "nf" RetryAfterHeader.absent)
    404 none "nf" RetryAfterHeader.absent).1 rfl (by decide) (by decide)

/-- Claim C10: when every one of the three permitted attempts of an
idempotent GET answers HTTP 429, the loop exhausts and
`_request_json_with_retry` falls through to
`return 500, None, "Erreur inattendue"` (api_clients.py, line 208): the
caller observes the synthetic 500 triple, not the real last 429 status and
body, after three Retry-After sleeps. -/
theorem all_429_returns_synthetic_500 (env : Nat → AttemptOutcome Nat)
    (h : ∀ i, i < 3 → ∃ d t ra, env i = AttemptOutcome.response 429 d t ra) :
    (requestJsonWithRetry env "GET" false).1
        = ReqResult.triple 500 none "Erreur inattendue" ∧
      (requestJsonWithRetry env "GET" false).2.length = 3 := by
  obtain ⟨d0, t0, ra0, h0⟩ := h 0 (by decide)
  obtain ⟨d1, t1, ra1, h1⟩ := h 1 (by decide)
  obtain ⟨d2, t2, ra2, h2⟩ := h 2 (by decide)
  constructor <;>
    simp [requestJsonWithRetry, maxRetriesFor, requestAux, h0, h1, h2]

/-- Witness for C10: a constant all-429 environment yields the synthetic
triple after three sleeps. -/
theorem all_429_returns_synthetic_500_witness :
    (requestJsonWithRetry
        (fun _ => AttemptOutcome.response 429 (none (α := Nat)) "rate"
          RetryAfterHeader.absent) "GET" false).1
        = ReqResult.triple 500 none "Erreur inattendue" ∧
      (requestJsonWithRetry
        (fun _ => AttemptOutcome.response 429 (none (α := Nat)) "rate"
          RetryAfterHeader.absent) "GET" false).2.length = 3 :=
  all_429_returns_synthetic_500
    (fun _ => AttemptOutcome.response 429 (none (α := Nat)) "rate" RetryAfterHeader.absent)
    (fun _ _ => ⟨none, "rate", RetryAfterHeader.absent, rfl⟩)

/-- Claim C9: every successful `_get_piste_token` call leaves a stored
expiry that is strictly in the future of `now`; when the token was freshly
exchanged the stored expiry is
`obtained_at + max(60, expires_in - 300)` — i.e. obtained_at plus
`expires_in` minus the 300-second safety margin, floored at a 60-second
validity window — and when the cached token is reused, the state is
untouched and the cached-validity guard guarantees `now` is strictly before
the stored expiry. No token is ever returned at or past its stored expiry. -/
theorem fetchPisteToken_ok (now : Int) (exchange : Option (String × Option Int))
    (tok : String) (st1 : TokenState)
    (h : fetchPisteToken now exchange = Except.ok (tok, st1)) :
    ∃ expIn : Option Int, exchange = some (tok, expIn) ∧
      st1 = { token := some tok,
              expiry := some (now + max 60 ((expIn.getD 3600) - 300)) } := by
  rcases exchange with _ | ⟨a, ei⟩
  · simp [fetchPisteToken] at h
  · simp only [fetchPisteToken, Except.ok.injEq, Prod.mk.injEq] at h
    exact ⟨ei, by rw [h.1], by rw [← h.2, ← h.1]⟩

theorem token_expiry_window (st : TokenState) (now : Int)
    (exchange : Option (String × Option Int)) (tok : String) (st1 : TokenState)
    (h : getPisteToken st now exchange = Except.ok (tok, st1)) :
    ∃ e : Int, st1.expiry = some e ∧ now < e ∧
      (cachedTokenValid st now = false →
        ∃ expIn : Option Int, exchange = some (tok, expIn) ∧
          e = now + max 60 ((expIn.getD 3600) - 300) ∧ now + 60 ≤ e) ∧
      (cachedTokenValid st now = true → st1 = st ∧ st.token = some tok) := by
  by_cases hc : cachedTokenValid st now = true
  · obtain ⟨t, e, htok, hexp, hlt⟩ :
        ∃ t e, st.token = some t ∧ st.expiry = some e ∧ now < e := by
      unfold cachedTokenValid at hc
      rcases h1 : st.token with _ | t <;> rcases h2 : st.expiry with _ | e <;>
        rw [h1, h2] at hc <;> simp at hc
      exact ⟨t, e, rfl, rfl, by simpa using hc⟩
    rw [getPisteToken, if_pos hc, htok] at h
    simp only [Except.ok.injEq, Prod.mk.injEq] at h
    refine ⟨e, ?_, hlt, ?_, ?_⟩
    · rw [← h.2]; exact hexp
    · intro hcf; rw [hcf] at hc; simp at hc
    · intro _; exact ⟨h.2.symm, by rw [← h.1]; exact htok⟩
  · have hcf : cachedTokenValid st now = false := by
      rcases hb : cachedTokenValid st now with _ | _
      · rfl
      · exact absurd hb hc
    have hfetch : fetchPisteToken now exchange = Except.ok (tok, st1) := by
      rwa [getPisteToken, if_neg hc] at h
    obtain ⟨ei, hex, hst⟩ := fetchPisteToken_ok now exchange tok st1 hfetch
    have hmax : (60 : Int) ≤ max 60 ((ei.getD 3600) - 300) := le_max_left _ _
    refine ⟨now + max 60 ((ei.getD 3600) - 300), by rw [hst], by omega,
      fun _ => ⟨ei, hex, rfl, by omega⟩,
      fun hct => by rw [hct] at hcf; cases hcf⟩

/-- Witness for C9: a refresh at `now = 100` with `expires_in = 1000` stores
expiry `100 + max 60 700 = 800`, strictly in the future with a 60-second
floor. -/
theorem token_expiry_window_witness :
    ∃ e : Int,
      ({ token := some "tok", expiry := some 800 } : TokenState).expiry = some e ∧
      (100 : Int) < e ∧
      (cachedTokenValid { token := none, expiry := none } 100 = false →
        ∃ expIn : Option Int, some ("tok", some 1000) = some ("tok", expIn) ∧
          e = 100 + max 60 ((expIn.getD 3600) - 300) ∧ (100 : Int) + 60 ≤ e) ∧
      (cachedTokenValid { token := none, expiry := none } 100 = true →
        ({ token := some "tok", expiry := some 800 } : TokenState)
            = { token := none, expiry := none } ∧
          ({ token := none, expiry := none } : TokenState).token = some "tok") :=
  token_expiry_window { token := none, expiry := none } 100 (some ("tok", some 1000))
    "tok" { token := some "tok", expiry := some 800 } rfl

/-- Counterexample to claim C6: two consecutive 401 responses are NOT a
terminal failure — `search_legifrance` pops the token and recurses on every
401 (api_clients.py, lines 238-241), so a third attempt proceeds and its 200
is returned. -/
theorem unauthorized_retry_counterexample :
    searchLegifrance
        [SearchOutcome.unauthorized, SearchOutcome.unauthorized,
          SearchOutcome.ok (42 : Nat)]
      = some (Except.ok 42) := rfl

/-- Claim C6 (amended): on a 401 the adapter invalidates its cached token
and retries with a fresh token, but the retry is unbounded, not at-most-once:
any number `n` of consecutive 401 responses is absorbed, the call succeeding
on a later 200-with-data and failing only on a non-401 error status. -/
theorem unauthorized_retry_unbounded (n : Nat) (d : Nat) (s : Nat) :
    (searchLegifrance
        (List.replicate n (SearchOutcome.unauthorized (α := Nat)) ++ [SearchOutcome.ok d])
      = some (Except.ok d)) ∧
    (searchLegifrance
        (List.replicate n (SearchOutcome.unauthorized (α := Nat)) ++ [SearchOutcome.failure s])
      = some (Except.error s)) := by
  induction n with
  | zero => exact ⟨rfl, rfl⟩
  | succ k ih =>
    simpa [List.replicate_succ, searchLegifrance] using ih

/-- Claim C1: in `recherche_complete_endpoint`, a raised adapter search is
returned in place by `asyncio.gather(..., return_exceptions=True)` and does
not cancel the sibling tasks or fail the call: the endpoint always returns a
formatted output in which every succeeding enabled adapter contributes its
formatted results and its count key in `analyse`, independent of the other
adapters' outcomes, while a failing enabled adapter is flagged by an empty
section together with an absent count key in `analyse` (`none`), the
endpoint's only failure marker, distinguishable from a zero-result success
whose count key is present. -/
theorem partial_failure_isolation (apis : List String) (oL oJ oB : Except Unit Payload) :
    (∀ p, apis.contains "legifrance" = true → oL = Except.ok p →
      (rechercheCompleteEndpoint apis oL oJ oB).legifrance = formaterLegifranceListe p ∧
      (rechercheCompleteEndpoint apis oL oJ oB).analyse.nombre_textes
        = some (formaterLegifranceListe p).length) ∧
    (apis.contains "legifrance" = true → oL = Except.error () →
      (rechercheCompleteEndpoint apis oL oJ oB).legifrance = [] ∧
      (rechercheCompleteEndpoint apis oL oJ oB).analyse.nombre_textes = none) ∧
    (∀ p, apis.contains "judilibre" = true → oJ = Except.ok p →
      (rechercheCompleteEndpoint apis oL oJ oB).judilibre = formaterResultatsJudilibre p ∧
      (rechercheCompleteEndpoint apis oL oJ oB).analyse.nombre_jurisprudence
        = some (formaterResultatsJudilibre p).length) ∧
    (apis.contains "judilibre" = true → oJ = Except.error () →
      (rechercheCompleteEndpoint apis oL oJ oB).judilibre = [] ∧
      (rechercheCompleteEndpoint apis oL oJ oB).analyse.nombre_jurisprudence = none) ∧
    (∀ p, apis.contains "justice_back" = true → oB = Except.ok p →
      (rechercheCompleteEndpoint apis oL oJ oB).justice_back = (formaterLieuxJustice p).lieux ∧
      (rechercheCompleteEndpoint apis oL oJ oB).analyse.nombre_lieux
        = some (formaterLieuxJustice p).lieux.length) ∧
    (apis.contains "justice_back" = true → oB = Except.error () →
      (rechercheCompleteEndpoint apis oL oJ oB).justice_back = [] ∧
      (rechercheCompleteEndpoint apis oL oJ oB).analyse.nombre_lieux = none) := by
  refine ⟨?_, ?_, ?_, ?_, ?_, ?_⟩
  · intro p hA hE
    subst hE
    have hA1 : "legifrance" ∈ apis := by simpa using hA
    by_cases hJ : "judilibre" ∈ apis <;> by_cases hB : "justice_back" ∈ apis <;>
      cases oJ <;> cases oB <;>
        simp [rechercheCompleteEndpoint, rechercheCompleteTasks,
          formaterResultatsComplets, processSlot, hA1, hJ, hB]
  · intro hA hE
    subst hE
    have hA1 : "legifrance" ∈ apis := by simpa using hA
    by_cases hJ : "judilibre" ∈ apis <;> by_cases hB : "justice_back" ∈ apis <;>
      cases oJ <;> cases oB <;>
        simp [rechercheCompleteEndpoint, rechercheCompleteTasks,
          formaterResultatsComplets, processSlot, hA1, hJ, hB]
  · intro p hA hE
    subst hE
    have hA1 : "judilibre" ∈ apis := by simpa using hA
    by_cases hL : "legifrance" ∈ apis <;> by_cases hB : "justice_back" ∈ apis <;>
      cases oL <;> cases oB <;>
        simp [rechercheCompleteEndpoint, rechercheCompleteTasks,
          formaterResultatsComplets, processSlot, hL, hA1, hB]
  · intro hA hE
    subst hE
    have hA1 : "judilibre" ∈ apis := by simpa using hA
    by_cases hL : "legifrance" ∈ apis <;> by_cases hB : "justice_back" ∈ apis <;>
      cases oL <;> cases oB <;>
        simp [rechercheCompleteEndpoint, rechercheCompleteTasks,
          formaterResultatsComplets, processSlot, hL, hA1, hB]
  · intro p hA hE
    subst hE
    have hA1 : "justice_back" ∈ apis := by simpa using hA
    by_cases hL : "legifrance" ∈ apis <;> by_cases hJ : "judilibre" ∈ apis <;>
      cases oL <;> cases oJ <;>
        simp [rechercheCompleteEndpoint, rechercheCompleteTasks,
          formaterResultatsComplets, processSlot, hL, hJ, hA1]
  · intro hA hE
    subst hE
    have hA1 : "justice_back" ∈ apis := by simpa using hA
    by_cases hL : "legifrance" ∈ apis <;> by_cases hJ : "judilibre" ∈ apis <;>
      cases oL <;> cases oJ <;>
        simp [rechercheCompleteEndpoint, rechercheCompleteTasks,
          formaterResultatsComplets, processSlot, hL, hJ, hA1]

/-- Witness for C1: with all three APIs enabled, Legifrance raising, and the
other two succeeding, the endpoint returns both successes formatted with
their counts present while Legifrance is flagged by an empty section and an
absent count. -/
theorem partial_failure_isolation_witness :
    (rechercheCompleteEndpoint ["legifrance", "judilibre", "justice_back"]
        (Except.error ()) (Except.ok wPayloadJudilibre) (Except.ok wPayloadJustice)).legifrance
      = [] ∧
    (rechercheCompleteEndpoint ["legifrance", "judilibre", "justice_back"]
        (Except.error ()) (Except.ok wPayloadJudilibre)
        (Except.ok wPayloadJustice)).analyse.nombre_textes = none ∧
    (rechercheCompleteEndpoint ["legifrance", "judilibre", "justice_back"]
        (Except.error ()) (Except.ok wPayloadJudilibre) (Except.ok wPayloadJustice)).judilibre
      = formaterResultatsJudilibre wPayloadJudilibre ∧
    (rechercheCompleteEndpoint ["legifrance", "judilibre", "justice_back"]
        (Except.error ()) (Except.ok wPayloadJudilibre)
        (Except.ok wPayloadJustice)).analyse.nombre_jurisprudence = some 1 ∧
    (rechercheCompleteEndpoint ["legifrance", "judilibre", "justice_back"]
        (Except.error ()) (Except.ok wPayloadJudilibre) (Except.ok wPayloadJustice)).justice_back
      = (formaterLieuxJustice wPayloadJustice).lieux ∧
    (rechercheCompleteEndpoint ["legifrance", "judilibre", "justice_back"]
        (Except.error ()) (Except.ok wPayloadJudilibre)
        (Except.ok wPayloadJustice)).analyse.nombre_lieux = some 1 := by
  have h := partial_failure_isolation ["legifrance", "judilibre", "justice_back"]
    (Except.error ()) (Except.ok wPayloadJudilibre) (Except.ok wPayloadJustice)
  have h1 := h.2.1 rfl rfl
  have h2 := h.2.2.1 wPayloadJudilibre rfl rfl
  have h3 := h.2.2.2.2.1 wPayloadJustice rfl rfl
  exact ⟨h1.1, h1.2, h2.1, h2.2.trans rfl, h3.1, h3.2.trans rfl⟩

/-- Claim C2, evaluated at the failing input (code bug): the first call
stores its aggregate; a second identical call 60 seconds later (inside the
30-minute TTL) is served from the cache with merged data identical to the
stored first result — but `from_cache` remains `false`. The stored dict
already contains `from_cache: False` (legal_search_persistent.py, line 95),
so `cached.setdefault("from_cache", True)` (line 75) — whose evident purpose
is to flag cache hits — never overwrites the existing key. A third call
after TTL expiry (now = 2000 > 1800) is a miss and performs a fresh
fan-out, as the claim states. -/
theorem cache_hit_keeps_from_cache_false :
    analyserEtRechercherPersistent c2Input []
      = Except.ok (fanoutResultats c2Input, [fanoutRow c2Input]) ∧
    analyserEtRechercherPersistent { c2Input with now := 60 } [fanoutRow c2Input]
      = Except.ok (fanoutResultats c2Input, [fanoutRow c2Input]) ∧
    (fanoutResultats c2Input).from_cache = some false ∧
    analyserEtRechercherPersistent { c2Input with now := 2000 } [fanoutRow c2Input]
      = Except.ok (fanoutResultats { c2Input with now := 2000 }, [fanoutRow c2Input]) :=
  ⟨rfl, rfl, rfl, rfl⟩

/-- Counterexample to claim C3: a fan-out in which every adapter fails
produces the all-failed aggregate (all counts 0) and the aggregate IS
written to the cache (the store at legal_search_persistent.py line 98 is
unconditional); a subsequent identical call 60 seconds later — whose
Legifrance adapter would now succeed with two results — is answered from the
cached all-failed entry instead of a fresh fan-out. -/
theorem all_failed_cached_counterexample :
    (fanoutResultats c3Input).nombre_textes = 0 ∧
    (fanoutResultats c3Input).nombre_jurisprudence = 0 ∧
    (fanoutResultats c3Input).nombre_lieux = 0 ∧
    analyserEtRechercherPersistent c3Input []
      = Except.ok (fanoutResultats c3Input, [fanoutRow c3Input]) ∧
    analyserEtRechercherPersistent c3Input2 [fanoutRow c3Input]
      = Except.ok (fanoutResultats c3Input, [fanoutRow c3Input]) :=
  ⟨rfl, rfl, rfl, rfl, rfl⟩

/-- Claim C3 (amended): a completed fan-out on a cache miss writes its
aggregate to the cache unconditionally — also when every enabled adapter
failed, in which case the stored aggregate has all counts 0 — and every
subsequent call with the same situation, strategy and requester issued
within the TTL of the write is answered from the cached (possibly
all-failed) entry rather than by a fresh fan-out. -/
theorem all_failed_aggregate_cached (inp : EngineInput) (db : CacheDB)
    (hs : ¬ pyStrip inp.situation = "")
    (hmiss : chargerDepuisCache inp.now defaultCacheTTL db inp.user_id (queryHashOf inp) = none)
    (hnew : ∀ row ∈ db, ¬(row.user_id = inp.user_id ∧ row.query_hash = queryHashOf inp))
    (hfail : inp.outLegifrance.success = false ∧ inp.outJudilibre.success = false ∧
      inp.outJusticeBack.success = false) :
    (fanoutResultats inp).nombre_textes = 0 ∧
    (fanoutResultats inp).nombre_jurisprudence = 0 ∧
    (fanoutResultats inp).nombre_lieux = 0 ∧
    analyserEtRechercherPersistent inp db
      = Except.ok (fanoutResultats inp, db ++ [fanoutRow inp]) ∧
    (∀ inp2 : EngineInput, inp2.situation = inp.situation → inp2.strategie = inp.strategie →
      inp2.user_id = inp.user_id → inp2.now ≤ inp.now + defaultCacheTTL →
      analyserEtRechercherPersistent inp2 (db ++ [fanoutRow inp])
        = Except.ok (setdefaultFromCache (fanoutResultats inp), db ++ [fanoutRow inp])) := by
  have hL : rechercherLegifrance inp.ffLegifrance inp.outLegifrance = { results := [] } := by
    simp [rechercherLegifrance, hfail.1]
  have hJ : rechercherJudilibre inp.ffJudilibre inp.outJudilibre = { results := [] } := by
    simp [rechercherJudilibre, hfail.2.1]
  have hB : rechercherJusticeBack inp.ffJusticeBack inp.outJusticeBack = { results := [] } := by
    simp [rechercherJusticeBack, hfail.2.2]
  have hany : (db.any fun r => r.user_id == inp.user_id && r.query_hash == queryHashOf inp)
      = false := by
    rw [List.any_eq_false]
    intro r hr
    simp only [Bool.and_eq_true, beq_iff_eq, not_and]
    intro h1 h2
    exact absurd ⟨h1, h2⟩ (hnew r hr)
  have hstore : enregistrerCache db (fanoutRow inp) = db ++ [fanoutRow inp] := by
    have h2 : (db.any fun r => r.user_id == (fanoutRow inp).user_id &&
        r.query_hash == (fanoutRow inp).query_hash) = false := by
      simpa [fanoutRow] using hany
    simp [enregistrerCache, h2]
  refine ⟨by simp [fanoutResultats, hL], by simp [fanoutResultats, hJ],
    by simp [fanoutResultats, hB], ?_, ?_⟩
  · rw [analyserEtRechercherPersistent, if_neg hs, hmiss, hstore]
  · intro inp2 e1 e2 e3 hle
    have hq2 : queryHashOf inp2 = queryHashOf inp := by
      unfold queryHashOf
      rw [e1, e2]
    have hs2 : ¬ pyStrip inp2.situation = "" := by
      rw [e1]; exact hs
    have hfilter : (db ++ [fanoutRow inp]).filter
        (fun r => r.user_id == inp.user_id && r.query_hash == queryHashOf inp)
          = [fanoutRow inp] := by
      rw [List.filter_append]
      have h1 : db.filter
          (fun r => r.user_id == inp.user_id && r.query_hash == queryHashOf inp) = [] := by
        rw [List.filter_eq_nil_iff]
        intro r hr
        simp only [Bool.and_eq_true, beq_iff_eq, not_and]
        intro h1 h2
        exact absurd ⟨h1, h2⟩ (hnew r hr)
      rw [h1]
      simp [fanoutRow]
    have hnostale : ¬ ((fanoutRow inp).created_at < inp2.now - defaultCacheTTL) := by
      simp only [fanoutRow]
      unfold defaultCacheTTL
      unfold defaultCacheTTL at hle
      omega
    have hlookup : chargerDepuisCache inp2.now defaultCacheTTL (db ++ [fanoutRow inp])
        inp2.user_id (queryHashOf inp2) = some (fanoutResultats inp) := by
      rw [hq2, e3]
      unfold chargerDepuisCache selectEntry
      rw [hfilter]
      show (if (fanoutRow inp).created_at < inp2.now - defaultCacheTTL then none
          else some (fanoutRow inp).resultats) = some (fanoutResultats inp)
      rw [if_neg hnostale]
      rfl
    rw [analyserEtRechercherPersistent, if_neg hs2, hlookup]

/-- Witness for the C3 theorem: the all-failed scenario at requester u3 on
an empty cache satisfies every hypothesis. -/
theorem all_failed_aggregate_cached_witness :
    (fanoutResultats c3Input).nombre_textes = 0 ∧
    (fanoutResultats c3Input).nombre_jurisprudence = 0 ∧
    (fanoutResultats c3Input).nombre_lieux = 0 ∧
    analyserEtRechercherPersistent c3Input []
      = Except.ok (fanoutResultats c3Input, [] ++ [fanoutRow c3Input]) ∧
    (∀ inp2 : EngineInput, inp2.situation = c3Input.situation →
      inp2.strategie = c3Input.strategie → inp2.user_id = c3Input.user_id →
      inp2.now ≤ c3Input.now + defaultCacheTTL →
      analyserEtRechercherPersistent inp2 ([] ++ [fanoutRow c3Input])
        = Except.ok (setdefaultFromCache (fanoutResultats c3Input),
            [] ++ [fanoutRow c3Input])) :=
  all_failed_aggregate_cached c3Input [] (by decide) rfl (by simp) ⟨rfl, rfl, rfl⟩

/-- Counterexample to claim C7: writing a row whose `(user_id, query_hash)`
key already exists leaves the table unchanged — `_enregistrer_cache` catches
the `IntegrityError`, rolls back and returns (legal_search_persistent.py,
lines 144-148) — so the existing row content is NOT superseded: a subsequent
read still returns the old aggregate, and the distinct new result was
silently discarded. -/
theorem conflict_keeps_old_content :
    enregistrerCache [c7RowA] c7RowB = [c7RowA] ∧
    chargerDepuisCache 5 defaultCacheTTL (enregistrerCache [c7RowA] c7RowB) "u" "q"
      = some c7ResA ∧
    c7ResA ≠ c7ResB :=
  ⟨rfl, rfl, by decide⟩

/-- Claim C7 (amended): the uniqueness constraint on
`(user_id, query_hash)` prevents a duplicate row and the write never raises
(the `IntegrityError` is caught and rolled back), but on conflict the
existing row's content is NOT superseded: the new result is silently
discarded and the table is unchanged; only a write with a fresh key appends
its row. The no-duplicate-keys invariant is preserved by every write. -/
theorem cache_write_insert_or_ignore (db : CacheDB) (rowOld rowNew : CacheRow) :
    (rowOld ∈ db → rowOld.user_id = rowNew.user_id → rowOld.query_hash = rowNew.query_hash →
      enregistrerCache db rowNew = db) ∧
    ((∀ r ∈ db, ¬ sameKey r rowNew) → enregistrerCache db rowNew = db ++ [rowNew]) ∧
    (noDupKeys db → noDupKeys (enregistrerCache db rowNew)) := by
  refine ⟨?_, ?_, ?_⟩
  · intro hmem h1 h2
    have hany : (db.any fun r => r.user_id == rowNew.user_id && r.query_hash == rowNew.query_hash)
        = true :=
      List.any_eq_true.mpr ⟨rowOld, hmem, by simp [h1, h2]⟩
    simp [enregistrerCache, hany]
  · intro hfresh
    have hany : (db.any fun r => r.user_id == rowNew.user_id && r.query_hash == rowNew.query_hash)
        = false := by
      rw [List.any_eq_false]
      intro r hr
      simp only [Bool.and_eq_true, beq_iff_eq, not_and]
      intro h1 h2
      exact absurd ⟨h1, h2⟩ (hfresh r hr)
    simp [enregistrerCache, hany]
  · intro hdup
    by_cases hany : (db.any fun r => r.user_id == rowNew.user_id &&
        r.query_hash == rowNew.query_hash) = true
    · simpa [enregistrerCache, hany] using hdup
    · have hany2 : (db.any fun r => r.user_id == rowNew.user_id &&
          r.query_hash == rowNew.query_hash) = false := by
        rcases hb : (db.any fun r => r.user_id == rowNew.user_id &&
            r.query_hash == rowNew.query_hash) with _ | _
        · rfl
        · exact absurd hb hany
      have hstep : enregistrerCache db rowNew = db ++ [rowNew] := by
        simp [enregistrerCache, hany2]
      rw [hstep, noDupKeys, List.pairwise_append]
      refine ⟨hdup, List.pairwise_singleton _ _, ?_⟩
      intro a ha b hb
      have hbeq : b = rowNew := List.mem_singleton.mp hb
      subst hbeq
      have := (List.any_eq_false.mp hany2) a ha
      simp only [Bool.and_eq_true, beq_iff_eq] at this
      intro hk
      exact this ⟨hk.1, hk.2⟩

/-- Witness for the C7 theorem: the conflicting write of the C7 scenario is
ignored, and a fresh-key write appends its row. -/
theorem cache_write_insert_or_ignore_witness :
    enregistrerCache [c7RowA] c7RowB = [c7RowA] ∧
    enregistrerCache [] c7RowA = [] ++ [c7RowA] :=
  ⟨(cache_write_insert_or_ignore [c7RowA] c7RowA c7RowB).1 (by simp) rfl rfl,
    (cache_write_insert_or_ignore [] c7RowA c7RowA).2.1 (by simp)⟩

/-- Counterexample to claim C8: a multi-API search carrying the invalid
postal code "abc" with the court-locator enabled is NOT rejected — the
endpoint still issues the Justice Back network call (`some _`) and silently
drops the invalid filter (`none`), logging only a warning
(app/main.py, lines 359-364). -/
theorem invalid_postal_silently_ignored :
    rechercheJusticeNetworkCall ["justice_back"] (some "abc") = some none := rfl

/-- Claim C8 (amended): only the lieux-justice endpoint validates the postal
code — "75001" is accepted, "abc" and "750" are rejected with HTTP 400
before any network call, and an empty value is rejected as required; the
multi-API search endpoint never rejects an invalid postal code: it silently
drops the filter and still performs the Justice Back call, while a valid
code is passed through as the filter. An empty-after-trim description is
invalid per the spec-modelled `SearchRequest` validator. -/
theorem postal_validation_actual :
    (lieuxJusticeEndpoint "75001" = LieuxJusticeOutcome.networkCall "75001") ∧
    (lieuxJusticeEndpoint "abc"
      = LieuxJusticeOutcome.rejected 400 "Code postal invalide - doit contenir 5 chiffres") ∧
    (lieuxJusticeEndpoint "750"
      = LieuxJusticeOutcome.rejected 400 "Code postal invalide - doit contenir 5 chiffres") ∧
    (lieuxJusticeEndpoint "" = LieuxJusticeOutcome.rejected 400 "Le code postal est requis") ∧
    (∀ (apis : List String) (cp : String), apis.contains "justice_back" = true →
      matchesCodePostal cp = false →
      rechercheJusticeNetworkCall apis (some cp) = some none) ∧
    (∀ (apis : List String) (cp : String), apis.contains "justice_back" = true →
      matchesCodePostal cp = true →
      rechercheJusticeNetworkCall apis (some cp) = some (some cp)) ∧
    (∀ d : String, searchRequestDescriptionValid d = false ↔ pyStrip d = "") := by
  refine ⟨rfl, rfl, rfl, rfl, ?_, ?_, ?_⟩
  · intro apis cp hA hcp
    have hA1 : "justice_back" ∈ apis := by simpa using hA
    simp [rechercheJusticeNetworkCall, justiceCodePostalFilter, hA1, hcp]
  · intro apis cp hA hcp
    have hA1 : "justice_back" ∈ apis := by simpa using hA
    simp [rechercheJusticeNetworkCall, justiceCodePostalFilter, hA1, hcp]
  · intro d
    simp [searchRequestDescriptionValid]

/-- Witness for the C8 theorem: "750" is silently dropped by the search
endpoint while "75001" is passed through. -/
theorem postal_validation_actual_witness :
    rechercheJusticeNetworkCall ["justice_back"] (some "750") = some none ∧
    rechercheJusticeNetworkCall ["justice_back"] (some "75001") = some (some "75001") :=
  ⟨postal_validation_actual.2.2.2.2.1 ["justice_back"] "750" rfl rfl,
    postal_validation_actual.2.2.2.2.2.1 ["justice_back"] "75001" rfl rfl⟩
